import Mathlib

/-!
Shallow embedding of the finsage backend (`backend/backend.py`): the SHAP
attribution extractor `generate_shap_insights` together with the derived-ratio
helpers `calculate_loan_grade`, `calculate_ltv_ratio`, `calculate_dti_ratio`
and the feature-row builder `prepare_user_data`.

Modelling conventions: Python floats are rationals; numpy arrays are nested
lists; fallible Python calls return `Except Unit`; a Python dict is an
association list maintained with Python's insertion-order update semantics;
duck-typed capability probes (`hasattr(step, 'predict_proba')`,
`hasattr(step, 'transform')`) are boolean fields of a stage record.
-/

namespace Finsage

/-- A pandas DataFrame: named columns plus a list of rows.  `len(X)` is the
number of rows and `X.columns.tolist()` is `columns`. -/
structure DataFrame where
  columns : List String
  data : List (List ℚ)
deriving Repr, DecidableEq

/-- A numpy array of one to three dimensions, as produced by
`shap.TreeExplainer(...).shap_values`.  A Python list of 2-D arrays (the
usual per-class output) is converted by `np.array` on line 82 into the 3-D
case, so the embedding represents that raw output directly as `d3`. -/
inductive Tensor where
  | d1 (v : List ℚ)
  | d2 (m : List (List ℚ))
  | d3 (c : List (List (List ℚ)))
deriving Repr, DecidableEq

/-- Number of dimensions, `len(shap_values.shape)`. -/
def Tensor.ndim : Tensor → Nat
  | .d1 _ => 1
  | .d2 _ => 2
  | .d3 _ => 3

/-- First shape component, `shap_values.shape[0]`. -/
def Tensor.shape0 : Tensor → Nat
  | .d1 v => v.length
  | .d2 m => m.length
  | .d3 c => c.length

/-- numpy indexing `shap_values[1]` along axis 0; out of range raises
`IndexError` (modelled as `.error ()`).  Indexing a 1-D array yields a
scalar, which this 1-to-3-D type cannot represent; the extractor indexes
only under its shape guard, which never reaches that case, and the guard
failing there is observationally the caught-exception path anyway. -/
def Tensor.atIndex1 : Tensor → Except Unit Tensor
  | .d3 c =>
    match c.get? 1 with
    | some m => .ok (.d2 m)
    | none => .error ()
  | .d2 m =>
    match m.get? 1 with
    | some v => .ok (.d1 v)
    | none => .error ()
  | .d1 _ => .error ()

/-- Lines 84-89 of `generate_shap_insights`: for binary classification pick
the second class when the output has more than two dimensions, or exactly
two dimensions with more than one leading slice. -/
def classSelect (t : Tensor) : Except Unit Tensor :=
  if 2 < t.ndim then t.atIndex1
  else if t.ndim = 2 ∧ 1 < t.shape0 then t.atIndex1
  else .ok t

/-- Line 92 plus the `zip` loop of lines 94-95: `shap_values[0]` must be a
1-D vector for `zip(feature_names, np.abs(shap_values[0]))` to iterate
pairs of name and scalar.  A 2-D slice pairs names with rows and
`float(row)` raises `TypeError`; a 1-D value indexes to a scalar and `zip`
raises `TypeError`; an empty leading axis raises `IndexError`.  All of
those are exceptions swallowed by the handler, hence `.error ()`. -/
def rowZero : Tensor → Except Unit (List ℚ)
  | .d2 m =>
    match m.get? 0 with
    | some v => .ok v
    | none => .error ()
  | .d1 _ => .error ()
  | .d3 _ => .error ()

/-- The shape-normalisation pipeline of lines 80-92: class selection
followed by extraction of the row-0 attribution vector. -/
def normalizeShap (t : Tensor) : Except Unit (List ℚ) :=
  (classSelect t).bind rowZero

/-- Python dict assignment `d[k] = v`: replaces the value in place if the
key exists, otherwise appends at the end (insertion order). -/
def dictAssign : List (String × ℚ) → String → ℚ → List (String × ℚ)
  | [], k, v => [(k, v)]
  | (k', v') :: rest, k, v =>
    if k' = k then (k', v) :: rest else (k', v') :: dictAssign rest k v

/-- Building a Python dict from a list of pairs by repeated assignment;
used for the `feature_importance` loop and for the final
`dict(sorted_features)` call. -/
def pyDict (l : List (String × ℚ)) : List (String × ℚ) :=
  l.foldl (fun d kv => dictAssign d kv.1 kv.2) []

/-- Stable insertion of a pair into a list kept descending by value: the
pair goes in front of the first entry whose value it reaches or exceeds. -/
def insertDesc (x : String × ℚ) : List (String × ℚ) → List (String × ℚ)
  | [] => [x]
  | y :: ys => if y.2 ≤ x.2 then x :: y :: ys else y :: insertDesc x ys

/-- Line 98, `sorted(feature_importance.items(), key=lambda x: x[1],
reverse=True)`.  Python's `sorted` is specified by its contract — a stable
sort, here descending by the value component — so it is modelled as a
stable insertion sort, which has the same contract (and therefore the same
output). -/
def pySortDesc (l : List (String × ℚ)) : List (String × ℚ) :=
  l.foldr insertDesc []

/-- Lines 91-100: absolute values, pairing with `X.columns` (`zip`
truncates to the shorter list), dict build, descending sort, final dict. -/
def buildImportance (cols : List String) (v : List ℚ) : List (String × ℚ) :=
  pyDict (pySortDesc (pyDict (cols.zip (v.map fun q => |q|))))

/-- The explainer object returned by `shap.TreeExplainer`: its
`shap_values` method may raise. -/
structure Explainer where
  shapValues : DataFrame → Except Unit Tensor

/-- A pipeline stage (or a bare estimator): the two duck-typed capability
probes the extractor performs, the stage's `transform` method, and the
outcome of `shap.TreeExplainer(stage)` construction. -/
structure Step where
  hasPredictProba : Bool
  hasTransform : Bool
  transform : DataFrame → Except Unit DataFrame
  treeExplainer : Except Unit Explainer

/-- An sklearn `Pipeline`: `named_steps` in definition order.  Python dict
keys are unique, so indexing `named_steps[key]` after the scan returns the
scanned entry itself. -/
structure SkPipeline where
  named_steps : List (String × Step)

/-- The `model` argument: either an object with a `named_steps` attribute
or a bare estimator. -/
inductive Model where
  | pipeline (p : SkPipeline)
  | bare (e : Step)

/-- The scan loop `for key, step in model.named_steps.items()`: the first
entry whose step satisfies the capability probe. -/
def findStepEntry (p : Step → Bool) : List (String × Step) → Option (String × Step)
  | [] => none
  | (k, s) :: rest => if p s then some (k, s) else findStepEntry p rest

/-- Lines 38-52: resolve the final estimator.  A pipeline yields the first
stage with `predict_proba` (or `none`, the `NoClassifierFound` path); a
bare model is used directly. -/
def resolveEstimator : Model → Option Step
  | .pipeline sp => (findStepEntry (fun s => s.hasPredictProba) sp.named_steps).map Prod.snd
  | .bare e => some e

/-- Lines 54-68: resolve and apply the transform stage.  Note the source
tests `if preprocessor_key:` — string truthiness — so a stage named `""`
is skipped and the row passes through unchanged. -/
def resolveTransform : Model → DataFrame → Except Unit DataFrame
  | .pipeline sp, X =>
    match findStepEntry (fun s => s.hasTransform) sp.named_steps with
    | some (k, s) => if k = "" then .ok X else s.transform X
    | none => .ok X
  | .bare _, X => .ok X

/-- The error conditions `generate_shap_insights` reports via `st.error`:
the two fail-fast input checks, the missing-classifier check, and the
catch-all exception handler of lines 102-107. -/
inductive ShapError where
  | invalidInput
  | noClassifier
  | caught
deriving Repr, DecidableEq

/-- Lines 70-100 after stage resolution: transform result, explainer
construction, raw attribution values, shape normalisation, and the
importance dict.  Any raised exception lands in the handler (`caught`). -/
def gsiRest (est : Step) (Xt : Except Unit DataFrame) (cols : List String) :
    Except ShapError (List (String × ℚ)) :=
  match Xt with
  | .error _ => .error .caught
  | .ok xt =>
    match est.treeExplainer with
    | .error _ => .error .caught
    | .ok ex =>
      match ex.shapValues xt with
      | .error _ => .error .caught
      | .ok t =>
        match normalizeShap t with
        | .error _ => .error .caught
        | .ok v => .ok (buildImportance cols v)

/-- The body of the `try` block of `generate_shap_insights` (lines 28-100):
early returns are the explicit error variants, exceptions the `caught`
variant. -/
def gsiBody (model? : Option Model) (X? : Option DataFrame) :
    Except ShapError (List (String × ℚ)) :=
  match model? with
  | none => .error .invalidInput
  | some model =>
    match X? with
    | none => .error .invalidInput
    | some X =>
      if X.data.length = 0 then .error .invalidInput
      else
        match resolveEstimator model with
        | none => .error .noClassifier
        | some est => gsiRest est (resolveTransform model X) X.columns

/-- `LoanInsightsGenerator.generate_shap_insights` (lines 26-107): total;
returns the importance dict together with the error condition (if any)
reported through `st.error`.  On every failure the dict is empty. -/
def generate_shap_insights (model? : Option Model) (X? : Option DataFrame) :
    List (String × ℚ) × Option ShapError :=
  match gsiBody model? X? with
  | .ok d => (d, none)
  | .error e => ([], some e)

/-- Lines 452-462, `calculate_loan_grade`. -/
def calculate_loan_grade (cibil_score : ℚ) : String :=
  if cibil_score < 580 then "G"
  else if cibil_score < 670 then "F"
  else if cibil_score < 740 then "D"
  else if cibil_score < 800 then "B"
  else "A"

/-- Lines 464-469, `calculate_ltv_ratio`. -/
def calculate_ltv_ratio (loan_amount property_value : ℚ) (home_ownership : String) : ℚ :=
  if home_ownership = "RENT" then 0
  else if property_value ≤ 0 then 0
  else loan_amount / property_value * 100

/-- Lines 471-474, `calculate_dti_ratio`. -/
def calculate_dti_ratio (total_debt annual_income : ℚ) : ℚ :=
  if annual_income ≤ 0 then 0
  else total_debt / annual_income * 100

/-- Python `round(x, 2)` (round-half-to-even), modelled exactly over ℚ;
binary floating-point representation effects are elided.  No claim depends
on the rounded amounts. -/
def roundHalfEven (q : ℚ) : ℤ :=
  let f := ⌊q⌋
  let r := q - f
  if r < 1 / 2 then f
  else if 1 / 2 < r then f + 1
  else if f % 2 = 0 then f else f + 1

/-- Two-decimal rounding used by `prepare_user_data`. -/
def round2 (q : ℚ) : ℚ := (roundHalfEven (q * 100) : ℚ) / 100

/-- The single-row DataFrame built on lines 499-516 and handed to the
pipeline (`borrower_name` is deliberately excluded by the source). -/
structure UserInput where
  person_age : ℚ
  person_income : ℚ
  person_home_ownership : String
  person_emp_length : ℚ
  loan_intent : String
  loan_grade : String
  loan_amnt : ℚ
  loan_int_rate : ℚ
  cb_person_default_on_file : String
  cb_person_cred_hist_length : ℚ
  dti_ratio : ℚ
  ltv_ratio : ℚ
  cibil_score : ℚ
  total_debt : ℚ
deriving Repr, DecidableEq

/-- The `user_data` dict of lines 517-524: the row's fields plus the
original-currency extras added after `to_dict()`. -/
structure UserData extends UserInput where
  original_income_inr : ℚ
  original_loan_amnt_inr : ℚ
  property_value_inr : ℚ
  total_debt_inr : ℚ
deriving Repr, DecidableEq

/-- Lines 476-525, `prepare_user_data`.  The rounded `property_value` of
line 492 is computed but unused by the source, mirrored here with an
underscore binder.  `borrower_name` is likewise accepted and unused. -/
def prepare_user_data
    (person_age : ℚ) (home_ownership borrower_name : String)
    (loan_amnt_inr exchange_rate : ℚ) (loan_intent : String)
    (cb_person_cred_hist_length property_value_inr person_income_inr
      person_emp_length loan_int_rate cibil_score total_debt_inr : ℚ) :
    UserInput × UserData × String × ℚ × ℚ :=
  let _ := borrower_name
  let loan_amnt := round2 (loan_amnt_inr * exchange_rate)
  let _property_value := round2 (property_value_inr * exchange_rate)
  let person_income := round2 (person_income_inr * exchange_rate)
  let total_debt := round2 (total_debt_inr * exchange_rate)
  let loan_grade := calculate_loan_grade cibil_score
  let cb_person_default_on_file := "N"
  let ltv_ratio := calculate_ltv_ratio loan_amnt_inr property_value_inr home_ownership
  let dti_ratio := calculate_dti_ratio total_debt_inr person_income_inr
  let user_input : UserInput :=
    { person_age := person_age
      person_income := person_income
      person_home_ownership := home_ownership
      person_emp_length := person_emp_length
      loan_intent := loan_intent
      loan_grade := loan_grade
      loan_amnt := loan_amnt
      loan_int_rate := loan_int_rate
      cb_person_default_on_file := cb_person_default_on_file
      cb_person_cred_hist_length := cb_person_cred_hist_length
      dti_ratio := dti_ratio
      ltv_ratio := ltv_ratio
      cibil_score := cibil_score
      total_debt := total_debt }
  let user_data : UserData :=
    { toUserInput := user_input
      original_income_inr := person_income_inr
      original_loan_amnt_inr := loan_amnt_inr
      property_value_inr := if home_ownership = "RENT" then 0 else property_value_inr
      total_debt_inr := total_debt_inr }
  (user_input, user_data, loan_grade, ltv_ratio, dti_ratio)

/-! Helper lemmas about the stage scan, the Python dict embedding, and the
stable descending sort. -/

/-- The stage scan is `List.find?` over the named steps. -/
theorem findStepEntry_eq_find (p : Step → Bool) :
    ∀ steps : List (String × Step),
      findStepEntry p steps = steps.find? (fun kv => p kv.2)
  | [] => rfl
  | (k, s) :: rest => by
    by_cases hp : p s
    · simp [findStepEntry, hp, List.find?_cons_of_pos]
    · simp [findStepEntry, hp, List.find?_cons_of_neg, findStepEntry_eq_find p rest]

/-- When exactly one step satisfies the probe, the scan returns it. -/
theorem findStepEntry_of_filter (p : Step → Bool) :
    ∀ (steps : List (String × Step)) (e : String × Step),
      steps.filter (fun kv => p kv.2) = [e] → findStepEntry p steps = some e
  | [], e, h => by simp at h
  | (k, s) :: rest, e, h => by
    by_cases hp : p s
    · simp only [List.filter_cons, hp, if_pos] at h
      rw [List.cons.injEq] at h
      simp [findStepEntry, hp, h.1]
    · simp only [List.filter_cons, hp] at h
      simp only [findStepEntry, hp, if_neg, Bool.false_eq_true, if_false]
      exact findStepEntry_of_filter p rest e (by simpa using h)

/-- Assigning a fresh key appends the pair at the end. -/
theorem dictAssign_of_not_mem (k : String) (v : ℚ) :
    ∀ d : List (String × ℚ), k ∉ d.map Prod.fst → dictAssign d k v = d ++ [(k, v)]
  | [], _ => rfl
  | (k', v') :: rest, h => by
    have hk : ¬(k' = k) := fun he => h (by simp [he])
    have hr : k ∉ rest.map Prod.fst := fun hm => h (by simp [hm])
    simp [dictAssign, hk, dictAssign_of_not_mem k v rest hr]

/-- Folding assignments over pairs with globally distinct keys just appends. -/
theorem foldl_dictAssign_append :
    ∀ l d : List (String × ℚ), ((d ++ l).map Prod.fst).Nodup →
      l.foldl (fun acc kv => dictAssign acc kv.1 kv.2) d = d ++ l
  | [], d, _ => by simp
  | (k, v) :: rest, d, h => by
    have h' := h
    rw [List.map_append, List.nodup_append] at h'
    obtain ⟨-, -, h3⟩ := h'
    have hk : k ∉ d.map Prod.fst := fun hm => (h3 hm) (by simp)
    simp only [List.foldl_cons]
    rw [show dictAssign d k v = d ++ [(k, v)] from dictAssign_of_not_mem k v d hk]
    rw [foldl_dictAssign_append rest (d ++ [(k, v)]) (by simpa [List.append_assoc] using h)]
    simp

/-- A Python dict built from pairs with distinct keys is those pairs. -/
theorem pyDict_eq_self (l : List (String × ℚ)) (h : (l.map Prod.fst).Nodup) :
    pyDict l = l := by
  simpa [pyDict] using foldl_dictAssign_append l [] (by simpa using h)

/-- Key list of a dict after one assignment. -/
theorem dictAssign_map_fst (k : String) (v : ℚ) :
    ∀ d : List (String × ℚ),
      (dictAssign d k v).map Prod.fst =
        if k ∈ d.map Prod.fst then d.map Prod.fst else d.map Prod.fst ++ [k]
  | [] => by simp [dictAssign]
  | (k', v') :: rest => by
    by_cases hk : k' = k
    · subst hk
      simp [dictAssign]
    · have hne : ¬(k = k') := fun he => hk he.symm
      by_cases hm : k ∈ rest.map Prod.fst <;>
        simp [dictAssign, hk, hne, hm, dictAssign_map_fst k v rest]

/-- Assignment preserves distinctness of keys. -/
theorem dictAssign_keys_nodup {d : List (String × ℚ)} (h : (d.map Prod.fst).Nodup)
    (k : String) (v : ℚ) : ((dictAssign d k v).map Prod.fst).Nodup := by
  rw [dictAssign_map_fst]
  by_cases hm : k ∈ d.map Prod.fst
  · simpa [hm] using h
  · simp [hm, List.nodup_append, h]

/-- Folded assignments preserve distinctness of keys. -/
theorem foldl_dictAssign_keys_nodup :
    ∀ l d : List (String × ℚ), (d.map Prod.fst).Nodup →
      ((l.foldl (fun acc kv => dictAssign acc kv.1 kv.2) d).map Prod.fst).Nodup
  | [], _, h => h
  | (k, v) :: rest, d, h => by
    simp only [List.foldl_cons]
    exact foldl_dictAssign_keys_nodup rest _ (dictAssign_keys_nodup h k v)

/-- A Python dict always has distinct keys. -/
theorem pyDict_keys_nodup (l : List (String × ℚ)) : ((pyDict l).map Prod.fst).Nodup :=
  foldl_dictAssign_keys_nodup l [] (by simp)

/-- Every value in a dict after one assignment came from the dict or is the
assigned value. -/
theorem mem_map_snd_dictAssign {x : ℚ} (k : String) (v : ℚ) :
    ∀ d : List (String × ℚ),
      x ∈ (dictAssign d k v).map Prod.snd → x ∈ d.map Prod.snd ∨ x = v
  | [], h => by simpa [dictAssign] using h
  | (k', v') :: rest, h => by
    by_cases hk : k' = k
    · simp [dictAssign, hk] at h
      rcases h with h | h
      · exact Or.inr h
      · exact Or.inl (by simp [h])
    · simp [dictAssign, hk] at h
      rcases h with h | h
      · exact Or.inl (by simp [h])
      · rcases mem_map_snd_dictAssign k v rest (by simpa using h) with h1 | h1
        · exact Or.inl (by simp [h1])
        · exact Or.inr h1

/-- Every value of folded assignments came from the seed dict or the pairs. -/
theorem mem_map_snd_foldl :
    ∀ (l d : List (String × ℚ)) (x : ℚ),
      x ∈ (l.foldl (fun acc kv => dictAssign acc kv.1 kv.2) d).map Prod.snd →
      x ∈ d.map Prod.snd ∨ x ∈ l.map Prod.snd
  | [], _, _, h => Or.inl h
  | (k, v) :: rest, d, x, h => by
    simp only [List.foldl_cons] at h
    rcases mem_map_snd_foldl rest (dictAssign d k v) x h with h1 | h1
    · rcases mem_map_snd_dictAssign k v d h1 with h2 | h2
      · exact Or.inl h2
      · exact Or.inr (by simp [h2])
    · exact Or.inr (by simp [h1])

/-- Every value of a Python dict came from the input pairs. -/
theorem mem_map_snd_pyDict {l : List (String × ℚ)} {x : ℚ}
    (h : x ∈ (pyDict l).map Prod.snd) : x ∈ l.map Prod.snd := by
  rcases mem_map_snd_foldl l [] x h with h1 | h1
  · simp at h1
  · exact h1

/-- Inserting is a permutation with consing. -/
theorem insertDesc_perm (x : String × ℚ) :
    ∀ l : List (String × ℚ), List.Perm (insertDesc x l) (x :: l)
  | [] => List.Perm.refl _
  | y :: ys => by
    unfold insertDesc
    by_cases hc : y.2 ≤ x.2
    · rw [if_pos hc]
    · rw [if_neg hc]
      exact ((insertDesc_perm x ys).cons y).trans (List.Perm.swap x y ys)

/-- The stable sort is a permutation of its input. -/
theorem pySortDesc_perm : ∀ l : List (String × ℚ), List.Perm (pySortDesc l) l
  | [] => List.Perm.refl _
  | a :: l => by
    have : pySortDesc (a :: l) = insertDesc a (pySortDesc l) := rfl
    rw [this]
    exact (insertDesc_perm a (pySortDesc l)).trans ((pySortDesc_perm l).cons a)

/-- Insertion preserves the descending-value invariant. -/
theorem insertDesc_sorted (x : String × ℚ) :
    ∀ l : List (String × ℚ), l.Pairwise (fun a b => b.2 ≤ a.2) →
      (insertDesc x l).Pairwise (fun a b => b.2 ≤ a.2)
  | [], _ => List.pairwise_singleton _ _
  | y :: ys, h => by
    rw [List.pairwise_cons] at h
    unfold insertDesc
    by_cases hc : y.2 ≤ x.2
    · rw [if_pos hc, List.pairwise_cons]
      refine ⟨fun z hz => ?_, List.pairwise_cons.mpr h⟩
      rcases List.mem_cons.mp hz with rfl | hz
      · exact hc
      · exact le_trans (h.1 z hz) hc
    · rw [if_neg hc, List.pairwise_cons]
      refine ⟨fun z hz => ?_, insertDesc_sorted x ys h.2⟩
      rcases List.mem_cons.mp ((insertDesc_perm x ys).mem_iff.mp hz) with rfl | hz
      · exact le_of_lt (lt_of_not_le hc)
      · exact h.1 z hz

/-- The stable sort output is descending in the value component. -/
theorem pySortDesc_sorted : ∀ l : List (String × ℚ),
    (pySortDesc l).Pairwise (fun a b => b.2 ≤ a.2)
  | [] => List.Pairwise.nil
  | a :: l => insertDesc_sorted a (pySortDesc l) (pySortDesc_sorted l)

/-- Every value in the importance mapping is an absolute attribution
component, hence non-negative. -/
theorem mem_buildImportance_nonneg (cols : List String) (v : List ℚ) :
    ∀ p ∈ buildImportance cols v, 0 ≤ p.2 := by
  intro p hp
  have h1 : p.2 ∈ (buildImportance cols v).map Prod.snd :=
    List.mem_map_of_mem Prod.snd hp
  unfold buildImportance at h1
  have h2 := mem_map_snd_pyDict h1
  have h3 : p.2 ∈ (pyDict (cols.zip (v.map fun q => |q|))).map Prod.snd :=
    ((pySortDesc_perm _).map Prod.snd).mem_iff.mp h2
  have h4 := mem_map_snd_pyDict h3
  obtain ⟨⟨a, b⟩, hpr, hsnd⟩ := List.mem_map.mp h4
  have h5 : b ∈ v.map (fun q => |q|) := (List.of_mem_zip hpr).2
  obtain ⟨q, -, habs⟩ := List.mem_map.mp h5
  rw [← hsnd, ← habs]
  exact abs_nonneg q

/-- The importance mapping is descending in the value component. -/
theorem buildImportance_sorted (cols : List String) (v : List ℚ) :
    (buildImportance cols v).Pairwise (fun a b => b.2 ≤ a.2) := by
  unfold buildImportance
  have hkeys : ((pyDict (cols.zip (v.map fun q => |q|))).map Prod.fst).Nodup :=
    pyDict_keys_nodup _
  have hperm := (pySortDesc_perm (pyDict (cols.zip (v.map fun q => |q|)))).map Prod.fst
  rw [pyDict_eq_self _ (hperm.nodup_iff.mpr hkeys)]
  exact pySortDesc_sorted _

/-- Unfolding `generate_shap_insights` on a successful body. -/
theorem gsi_eq_of_body_ok {m? : Option Model} {X? : Option DataFrame}
    {d : List (String × ℚ)} (h : gsiBody m? X? = .ok d) :
    generate_shap_insights m? X? = (d, none) := by
  unfold generate_shap_insights
  rw [h]

/-- Unfolding `generate_shap_insights` on a failing body. -/
theorem gsi_eq_of_body_error {m? : Option Model} {X? : Option DataFrame}
    {e : ShapError} (h : gsiBody m? X? = .error e) :
    generate_shap_insights m? X? = ([], some e) := by
  unfold generate_shap_insights
  rw [h]

/-- A successful tail run always produces an importance mapping over the
original column names. -/
theorem gsiRest_ok_inv {est : Step} {Xt : Except Unit DataFrame} {cols : List String}
    {d : List (String × ℚ)} (h : gsiRest est Xt cols = .ok d) :
    ∃ v, d = buildImportance cols v := by
  unfold gsiRest at h
  split at h
  · exact Except.noConfusion h
  · split at h
    · exact Except.noConfusion h
    · split at h
      · exact Except.noConfusion h
      · split at h
        · exact Except.noConfusion h
        · exact ⟨_, by simpa using h.symm⟩

/-- A successful body run always produces an importance mapping. -/
theorem gsiBody_ok_inv {m? : Option Model} {X? : Option DataFrame}
    {d : List (String × ℚ)} (h : gsiBody m? X? = .ok d) :
    ∃ cols v, d = buildImportance cols v := by
  unfold gsiBody at h
  split at h
  · exact Except.noConfusion h
  · split at h
    · exact Except.noConfusion h
    · split at h
      · exact Except.noConfusion h
      · split at h
        · exact Except.noConfusion h
        · obtain ⟨v, hv⟩ := gsiRest_ok_inv h
          exact ⟨_, v, hv⟩

/-! Concrete objects used by counterexamples and witnesses: a composite
pipeline of one transform-capable stage (which renames and widens the
feature space) and one classification-capable stage, plus a one-row frame
with two named features. -/

/-- The transformed row: three columns, different names from the input. -/
def exXt : DataFrame := ⟨["ta", "tb", "tc"], [[1, 2, 3]]⟩

/-- A tree explainer whose raw output is the usual per-class list of 2-D
arrays, i.e. a 3-D tensor after `np.array`. -/
def exExplainer : Explainer := ⟨fun _ => .ok (.d3 [[[1, 2, 3]], [[9, 8, 7]]])⟩

/-- The classification-capable stage. -/
def exStepClf : Step := ⟨true, false, fun X => .ok X, .ok exExplainer⟩

/-- The transform-capable stage: maps any row to `exXt`. -/
def exStepPre : Step := ⟨false, true, fun _ => .ok exXt, .error ()⟩

/-- The original one-row frame with columns `a`, `b`. -/
def exX : DataFrame := ⟨["a", "b"], [[1, 2]]⟩

/-- The named steps of the composite pipeline: one transform-capable stage
followed by one classification-capable stage. -/
def exSteps : List (String × Step) := [("pre", exStepPre), ("clf", exStepClf)]

/-- The composite pipeline. -/
def exPipe : Model := .pipeline ⟨exSteps⟩

/-- The first components of a zip are the first list truncated to the
second's length. -/
theorem map_fst_zip_eq_take : ∀ (l₁ : List String) (l₂ : List ℚ),
    (l₁.zip l₂).map Prod.fst = l₁.take l₂.length
  | [], _ => by simp
  | _ :: _, [] => by simp
  | a :: l₁, b :: l₂ => by
    simp [List.zip_cons_cons, map_fst_zip_eq_take l₁ l₂]

/-- C1 counterexample: in the concrete composite pipeline `exPipe` —
containing exactly one transform-capable and exactly one
classification-capable stage — run on the non-empty row `exX`, the
transform maps the row to `exXt`, whose column names differ from `exX`'s;
yet the returned mapping's keys are `exX`'s original column names, not
`exXt`'s.  This refutes the claim that the keys equal the transformed
row's column names whenever the two differ. -/
theorem generate_shap_insights_original_names_cex :
    (exSteps.filter (fun kv => kv.2.hasTransform)).length = 1 ∧
    (exSteps.filter (fun kv => kv.2.hasPredictProba)).length = 1 ∧
    exX.data ≠ [] ∧
    exStepPre.transform exX = .ok exXt ∧
    exXt.columns ≠ exX.columns ∧
    (generate_shap_insights (some exPipe) (some exX)).1.map Prod.fst = exX.columns ∧
    (generate_shap_insights (some exPipe) (some exX)).1.map Prod.fst ≠ exXt.columns :=
  ⟨rfl, rfl, by decide, rfl, by decide, by decide, by decide⟩

/-- C1 (amended): for every composite pipeline with exactly one
(non-empty-named) transform-capable stage and exactly one
classification-capable stage, and every non-empty row with distinct column
names, `generate_shap_insights` applies the transform stage to the row
before computing attributions — the result is the importance mapping built
from the explainer output at the transformed row — but the keys of the
returned mapping are drawn from the original row's column names (truncated
by `zip` to the attribution vector's length), not from the transformed
row's column names. -/
theorem generate_shap_insights_original_names
    (steps : List (String × Step)) (nmT nmC : String) (T C : Step)
    (X Xt : DataFrame) (ex : Explainer) (t : Tensor) (v : List ℚ)
    (hT : steps.filter (fun kv => kv.2.hasTransform) = [(nmT, T)])
    (hTname : nmT ≠ "")
    (hC : steps.filter (fun kv => kv.2.hasPredictProba) = [(nmC, C)])
    (hX : X.data ≠ [])
    (htr : T.transform X = .ok Xt)
    (hex : C.treeExplainer = .ok ex)
    (hsv : ex.shapValues Xt = .ok t)
    (hnorm : normalizeShap t = .ok v)
    (hnd : X.columns.Nodup) :
    generate_shap_insights (some (.pipeline ⟨steps⟩)) (some X) =
      (buildImportance X.columns v, none) ∧
    List.Perm
      ((generate_shap_insights (some (.pipeline ⟨steps⟩)) (some X)).1.map Prod.fst)
      ((X.columns.zip v).map Prod.fst) := by
  have hfC := findStepEntry_of_filter (fun s => s.hasPredictProba) steps (nmC, C) hC
  have hfT := findStepEntry_of_filter (fun s => s.hasTransform) steps (nmT, T) hT
  have hlen : ¬(X.data.length = 0) := by
    simpa [List.length_eq_zero] using hX
  have hbody : gsiBody (some (.pipeline ⟨steps⟩)) (some X) =
      .ok (buildImportance X.columns v) := by
    show (if X.data.length = 0 then Except.error ShapError.invalidInput
      else
        match resolveEstimator (.pipeline ⟨steps⟩) with
        | none => Except.error ShapError.noClassifier
        | some est =>
          gsiRest est (resolveTransform (.pipeline ⟨steps⟩) X) X.columns) =
      Except.ok (buildImportance X.columns v)
    rw [if_neg hlen]
    rw [show resolveEstimator (.pipeline ⟨steps⟩) = some C by
      simp [resolveEstimator, hfC]]
    rw [show resolveTransform (.pipeline ⟨steps⟩) X = .ok Xt by
      simp [resolveTransform, hfT, hTname, htr]]
    simp [gsiRest, hex, hsv, hnorm]
  have hmain := gsi_eq_of_body_ok hbody
  refine ⟨hmain, ?_⟩
  rw [hmain]
  have hlkeys : ((X.columns.zip (v.map fun q => |q|)).map Prod.fst).Nodup := by
    rw [map_fst_zip_eq_take]
    exact List.Nodup.sublist (List.take_sublist _ _) hnd
  have hd1 : pyDict (X.columns.zip (v.map fun q => |q|)) =
      X.columns.zip (v.map fun q => |q|) := pyDict_eq_self _ hlkeys
  have hsortkeys :
      ((pySortDesc (pyDict (X.columns.zip (v.map fun q => |q|)))).map Prod.fst).Nodup :=
    (((pySortDesc_perm _).map Prod.fst).nodup_iff).mpr (pyDict_keys_nodup _)
  have hd2 : buildImportance X.columns v =
      pySortDesc (pyDict (X.columns.zip (v.map fun q => |q|))) :=
    pyDict_eq_self _ hsortkeys
  rw [hd2, hd1]
  have hperm := (pySortDesc_perm (X.columns.zip (v.map fun q => |q|))).map Prod.fst
  have heq : (X.columns.zip (v.map fun q => |q|)).map Prod.fst =
      (X.columns.zip v).map Prod.fst := by
    rw [map_fst_zip_eq_take, map_fst_zip_eq_take, List.length_map]
  rw [heq] at hperm
  exact hperm

/-- Witness for the amended C1 at the concrete pipeline `exPipe` and row
`exX`: every hypothesis holds there, the result is the importance mapping
over the original columns `a`, `b`, and its keys are a permutation of the
zip-truncated original column list. -/
theorem generate_shap_insights_original_names_witness :
    generate_shap_insights (some exPipe) (some exX) =
      (buildImportance exX.columns [9, 8, 7], none) ∧
    List.Perm ((generate_shap_insights (some exPipe) (some exX)).1.map Prod.fst)
      ((exX.columns.zip [9, 8, 7]).map Prod.fst) :=
  generate_shap_insights_original_names exSteps "pre" "clf" exStepPre exStepClf
    exX exXt exExplainer (.d3 [[[1, 2, 3]], [[9, 8, 7]]]) [9, 8, 7]
    rfl (by decide) rfl (by decide) rfl rfl rfl rfl (by decide)

/-- C2: the shape-normalisation step selects the class-index-1 slice
exactly when the raw output has more than two dimensions, or exactly two
dimensions with more than one leading slice, and then takes row index 0 of
the resulting 2-D slice as the attribution vector. -/
theorem classSelect_spec (t : Tensor) :
    classSelect t =
      (if 2 < t.ndim ∨ (t.ndim = 2 ∧ 1 < t.shape0) then t.atIndex1 else .ok t) ∧
    (∀ (v : List ℚ) (m : List (List ℚ)),
      classSelect t = .ok (.d2 (v :: m)) → normalizeShap t = .ok v) := by
  constructor
  · by_cases h1 : 2 < t.ndim
    · simp [classSelect, h1]
    · by_cases h2 : t.ndim = 2 ∧ 1 < t.shape0
      · simp [classSelect, h1, h2]
      · simp [classSelect, h1, h2]
  · intro v m h
    have hn : normalizeShap t = (classSelect t).bind rowZero := rfl
    rw [hn, h]
    rfl

/-- Witness for C2: a concrete 3-D output (two class slices), where the
second slice's first row is the attribution vector. -/
theorem classSelect_spec_witness :
    normalizeShap (.d3 [[[1, 2]], [[5, 6]]]) = .ok [5, 6] :=
  (classSelect_spec (.d3 [[[1, 2]], [[5, 6]]])).2 [5, 6] [] rfl

/-- C3: `generate_shap_insights` never raises past its boundary — it
always returns a dictionary; on a successful body it is that dictionary
with no error, and on any internal failure the error is reported and the
dictionary is empty. -/
theorem generate_shap_insights_never_raises
    (m? : Option Model) (X? : Option DataFrame) :
    (∃ d, gsiBody m? X? = .ok d ∧ generate_shap_insights m? X? = (d, none)) ∨
    (∃ e, gsiBody m? X? = .error e ∧
      generate_shap_insights m? X? = ([], some e)) := by
  cases hb : gsiBody m? X? with
  | ok d => exact Or.inl ⟨d, rfl, gsi_eq_of_body_ok hb⟩
  | error e => exact Or.inr ⟨e, rfl, gsi_eq_of_body_error hb⟩

/-- C4: an absent pipeline, an absent row, or an empty row each yield the
empty mapping with the invalid-input condition, before any later step. -/
theorem generate_shap_insights_invalid_input :
    (∀ X?, generate_shap_insights none X? = ([], some .invalidInput)) ∧
    (∀ m : Model, generate_shap_insights (some m) none = ([], some .invalidInput)) ∧
    (∀ (m : Model) (X : DataFrame), X.data = [] →
      generate_shap_insights (some m) (some X) = ([], some .invalidInput)) := by
  refine ⟨fun _ => rfl, fun _ => rfl, fun m X h => ?_⟩
  have hlen : X.data.length = 0 := by simp [h]
  simp [generate_shap_insights, gsiBody, hlen]

/-- Witness for C4: a concrete pipeline with a zero-row frame. -/
theorem generate_shap_insights_invalid_input_witness :
    generate_shap_insights (some exPipe) (some ⟨["a"], []⟩) =
      ([], some .invalidInput) :=
  generate_shap_insights_invalid_input.2.2 exPipe ⟨["a"], []⟩ rfl

/-- C5: a pipeline with named stages none of which exposes
probability-estimation yields the empty mapping with the
no-classifier-found condition, and stage resolution picks the first stage
in definition order exposing probability-estimation. -/
theorem generate_shap_insights_no_classifier :
    (∀ (steps : List (String × Step)) (X : DataFrame),
      (∀ kv ∈ steps, kv.2.hasPredictProba = false) → X.data ≠ [] →
      generate_shap_insights (some (.pipeline ⟨steps⟩)) (some X) =
        ([], some .noClassifier)) ∧
    (∀ steps : List (String × Step),
      resolveEstimator (.pipeline ⟨steps⟩) =
        (steps.find? (fun kv => kv.2.hasPredictProba)).map Prod.snd) := by
  constructor
  · intro steps X hnone hX
    have hfind : findStepEntry (fun s => s.hasPredictProba) steps = none := by
      rw [findStepEntry_eq_find, List.find?_eq_none]
      intro kv hkv
      simp [hnone kv hkv]
    have hlen : ¬(X.data.length = 0) := by
      simpa [List.length_eq_zero] using hX
    simp [generate_shap_insights, gsiBody, resolveEstimator, hfind, hlen]
  · intro steps
    simp [resolveEstimator, findStepEntry_eq_find]

/-- Witness for C5: a one-stage pipeline whose only stage has no
probability-estimation capability. -/
theorem generate_shap_insights_no_classifier_witness :
    generate_shap_insights (some (.pipeline ⟨[("pre", exStepPre)]⟩)) (some exX) =
      ([], some .noClassifier) :=
  generate_shap_insights_no_classifier.1 [("pre", exStepPre)] exX
    (by
      intro kv hkv
      rcases List.mem_singleton.mp hkv with rfl
      rfl)
    (by simp [exX])

/-- C6: every value in the returned mapping is non-negative, and its
insertion order is descending by value (holding for every input, in
particular every one with a non-empty result). -/
theorem generate_shap_insights_nonneg_sorted
    (m? : Option Model) (X? : Option DataFrame) :
    (∀ p ∈ (generate_shap_insights m? X?).1, 0 ≤ p.2) ∧
    ((generate_shap_insights m? X?).1).Pairwise (fun a b => b.2 ≤ a.2) := by
  cases hb : gsiBody m? X? with
  | ok d =>
    obtain ⟨cols, v, rfl⟩ := gsiBody_ok_inv hb
    rw [gsi_eq_of_body_ok hb]
    exact ⟨mem_buildImportance_nonneg cols v, buildImportance_sorted cols v⟩
  | error e =>
    rw [gsi_eq_of_body_error hb]
    exact ⟨fun p hp => absurd hp (List.not_mem_nil p), List.Pairwise.nil⟩

/-- Witness for C6: the concrete pipeline run returns the pair
`("a", 9)`, whose value is non-negative. -/
theorem generate_shap_insights_nonneg_sorted_witness :
    ("a", (9 : ℚ)) ∈ (generate_shap_insights (some exPipe) (some exX)).1 ∧
    (0 : ℚ) ≤ ("a", (9 : ℚ)).2 :=
  ⟨by decide,
   (generate_shap_insights_nonneg_sorted (some exPipe) (some exX)).1
     ("a", (9 : ℚ)) (by decide)⟩

/-- C7: `calculate_ltv_ratio` returns exactly 0 when `home_ownership` is
"RENT" or `property_value ≤ 0`, and otherwise
`loan_amount / property_value * 100`. -/
theorem calculate_ltv_ratio_spec (loan_amount property_value : ℚ) (home_ownership : String) :
    ((home_ownership = "RENT" ∨ property_value ≤ 0) →
      calculate_ltv_ratio loan_amount property_value home_ownership = 0) ∧
    (home_ownership ≠ "RENT" → 0 < property_value →
      calculate_ltv_ratio loan_amount property_value home_ownership =
        loan_amount / property_value * 100) := by
  unfold calculate_ltv_ratio
  constructor
  · rintro (h | h)
    · simp [h]
    · rcases eq_or_ne home_ownership "RENT" with h2 | h2 <;> simp [h2, h]
  · intro h1 h2
    rw [if_neg h1, if_neg (not_le.mpr h2)]

/-- Witness for C7 at concrete inputs: a renter gets 0 and an owner with a
positive property value gets the ratio formula. -/
theorem calculate_ltv_ratio_spec_witness :
    calculate_ltv_ratio 50 200 "RENT" = 0 ∧
    calculate_ltv_ratio 50 200 "OWN" = 50 / 200 * 100 :=
  ⟨(calculate_ltv_ratio_spec 50 200 "RENT").1 (Or.inl rfl),
   (calculate_ltv_ratio_spec 50 200 "OWN").2 (by decide) (by norm_num)⟩

/-- C8: `calculate_dti_ratio` returns exactly 0 when `annual_income ≤ 0`,
and otherwise `total_debt / annual_income * 100`. -/
theorem calculate_dti_ratio_spec (total_debt annual_income : ℚ) :
    (annual_income ≤ 0 → calculate_dti_ratio total_debt annual_income = 0) ∧
    (0 < annual_income →
      calculate_dti_ratio total_debt annual_income = total_debt / annual_income * 100) := by
  unfold calculate_dti_ratio
  constructor
  · intro h
    rw [if_pos h]
  · intro h
    rw [if_neg (not_le.mpr h)]

/-- Witness for C8 at concrete inputs: zero income gives 0, positive income
gives the formula. -/
theorem calculate_dti_ratio_spec_witness :
    calculate_dti_ratio 30 0 = 0 ∧ calculate_dti_ratio 30 120 = 30 / 120 * 100 :=
  ⟨(calculate_dti_ratio_spec 30 0).1 (by norm_num),
   (calculate_dti_ratio_spec 30 120).2 (by norm_num)⟩

/-- C9: `calculate_loan_grade` buckets a credit score as G below 580, F
below 670, D below 740, B below 800, and A otherwise, each boundary
half-open on the lower bound. -/
theorem calculate_loan_grade_spec (c : ℚ) :
    (c < 580 → calculate_loan_grade c = "G") ∧
    (580 ≤ c → c < 670 → calculate_loan_grade c = "F") ∧
    (670 ≤ c → c < 740 → calculate_loan_grade c = "D") ∧
    (740 ≤ c → c < 800 → calculate_loan_grade c = "B") ∧
    (800 ≤ c → calculate_loan_grade c = "A") := by
  unfold calculate_loan_grade
  refine ⟨fun h1 => ?_, fun h1 h2 => ?_, fun h1 h2 => ?_, fun h1 h2 => ?_, fun h1 => ?_⟩
  · rw [if_pos h1]
  · rw [if_neg (not_lt.mpr h1), if_pos h2]
  · rw [if_neg (not_lt.mpr (by linarith)), if_neg (not_lt.mpr h1), if_pos h2]
  · rw [if_neg (not_lt.mpr (by linarith)), if_neg (not_lt.mpr (by linarith)),
      if_neg (not_lt.mpr h1), if_pos h2]
  · rw [if_neg (not_lt.mpr (by linarith)), if_neg (not_lt.mpr (by linarith)),
      if_neg (not_lt.mpr (by linarith)), if_neg (not_lt.mpr h1)]

/-- Witness for C9 at each exact boundary value. -/
theorem calculate_loan_grade_spec_witness :
    calculate_loan_grade 579 = "G" ∧ calculate_loan_grade 580 = "F" ∧
    calculate_loan_grade 670 = "D" ∧ calculate_loan_grade 740 = "B" ∧
    calculate_loan_grade 800 = "A" :=
  ⟨(calculate_loan_grade_spec 579).1 (by norm_num),
   (calculate_loan_grade_spec 580).2.1 (by norm_num) (by norm_num),
   (calculate_loan_grade_spec 670).2.2.1 (by norm_num) (by norm_num),
   (calculate_loan_grade_spec 740).2.2.2.1 (by norm_num) (by norm_num),
   (calculate_loan_grade_spec 800).2.2.2.2 (by norm_num)⟩

/-- C10: the feature row built by `prepare_user_data` always carries
`cb_person_default_on_file = "N"` regardless of every caller-supplied
argument, and the returned `user_data` has `property_value_inr = 0`
whenever `home_ownership = "RENT"`, overriding the caller's value. -/
theorem prepare_user_data_spec
    (person_age : ℚ) (home_ownership borrower_name : String)
    (loan_amnt_inr exchange_rate : ℚ) (loan_intent : String)
    (cb_person_cred_hist_length property_value_inr person_income_inr
      person_emp_length loan_int_rate cibil_score total_debt_inr : ℚ) :
    (prepare_user_data person_age home_ownership borrower_name loan_amnt_inr
        exchange_rate loan_intent cb_person_cred_hist_length property_value_inr
        person_income_inr person_emp_length loan_int_rate cibil_score
        total_debt_inr).1.cb_person_default_on_file = "N" ∧
    (prepare_user_data person_age home_ownership borrower_name loan_amnt_inr
        exchange_rate loan_intent cb_person_cred_hist_length property_value_inr
        person_income_inr person_emp_length loan_int_rate cibil_score
        total_debt_inr).2.1.property_value_inr =
      (if home_ownership = "RENT" then 0 else property_value_inr) :=
  ⟨rfl, rfl⟩

end Finsage
